import Mathlib

/-!
Shallow embedding of the route-planning and fuel-optimization engine of the
`optimo_route` Django application (`serializers.py`, `views.py`,
`models.py`).

Numeric conventions of the embedding:
* Python floats (coordinates, route distances) and `decimal.Decimal`
  monetary values are both modelled as exact rationals (`ℚ`); every float
  and every `Decimal` value is a rational, and the arithmetic the code
  performs on them (`//`, `/`, `*`, comparisons) is modelled by the exact
  rational operations.
* The database table `FuelPrice` is modelled as a `List FuelPrice`; the
  queryset operations used by the code (`order_by('price_per_gallon')`,
  `exists()`, `first()`, `aggregate(Avg(...))`) are modelled as list
  operations (`order_by_price` is a stable sort on the price field, exactly
  like the SQL `ORDER BY`).
* Python exceptions are modelled with `Except`: `ValueError` and
  `requests.exceptions.HTTPError` are the two exception classes the view
  catches (`Exc.valueError` / `Exc.httpError`);
  `rest_framework.serializers.ValidationError` raised by a field validator
  is `FieldExc.validationError`, which Django REST Framework's
  `Serializer.to_internal_value` catches per field while letting every
  other exception propagate (that framework behaviour is embedded in
  `to_internal_value` below).
* The two external HTTP providers (Nominatim geocoding, OSRM routing) are
  modelled as oracle functions supplied in the environment `Env`.
-/

namespace OptimoRoute

/-- Constant `VEHICLE_RANGE_MILES = 500` from `serializers.py`. -/
def VEHICLE_RANGE_MILES : ℚ := 500

/-- Constant `VEHICLE_MPG = 10` from `serializers.py`. -/
def VEHICLE_MPG : ℚ := 10

/-- One row of the `FuelPrice` model (`models.py`): `city`, `state`,
`price_per_gallon` (a `DecimalField`, modelled as `ℚ`). -/
structure FuelPrice where
  city : String
  state : String
  price_per_gallon : ℚ
deriving DecidableEq

/-- One entry of the list built by `find_optimal_fuel_stops`: the dict with
keys `city`, `state`, `price_per_gallon`, `distance_from_start`. -/
structure FuelStop where
  city : String
  state : String
  price_per_gallon : ℚ
  distance_from_start : ℚ
deriving DecidableEq

/-- Outcome of one Nominatim geocoding lookup for one location string:
a coordinate pair, an empty result list (`if not data`), or an HTTP error
(`response.raise_for_status()`). -/
inductive GeoResult where
  | found (lat lon : ℚ)
  | noMatch
  | providerError (msg : String)

/-- Outcome of one OSRM routing call for a pair of coordinate pairs:
a raw distance in meters plus a geometry, or an HTTP error. -/
inductive RouteResult where
  | found (distance_meters : ℚ) (geometry : String)
  | providerError (msg : String)

/-- The two exception classes caught by `RouteView.post`:
`requests.exceptions.HTTPError` and `ValueError`. -/
inductive Exc where
  | httpError (msg : String)
  | valueError (msg : String)
deriving DecidableEq

/-- Exceptions that can escape a `validate_<field>` method:
a `serializers.ValidationError` (caught per field by the framework), or
one of the `Exc` exceptions (which the framework does not catch). -/
inductive FieldExc where
  | validationError (msg : String)
  | exc (e : Exc)
deriving DecidableEq

/-- The external world of one request: the geocoding oracle, the routing
oracle, and the fuel-price table contents. -/
structure Env where
  geo : String → GeoResult
  route : ℚ × ℚ → ℚ × ℚ → RouteResult
  catalog : List FuelPrice

/-- `RouteSerializer.is_within_usa`: chained comparisons
`24.396308 <= lat <= 49.384358 and -125.0 <= lon <= -66.93457`. -/
def is_within_usa (lat lon : ℚ) : Bool :=
  decide ((24.396308 ≤ lat ∧ lat ≤ 49.384358) ∧ (-125.0 ≤ lon ∧ lon ≤ -66.93457))

/-- `RouteSerializer.geocode_location`: raises `HTTPError` on a provider
error, raises `ValueError "Location '<loc>' could not be geocoded."` when
the result list is empty, otherwise returns `(lat, lon)`. -/
def geocode_location (geo : String → GeoResult) (location : String) :
    Except Exc (ℚ × ℚ) :=
  match geo location with
  | .providerError m => .error (.httpError m)
  | .noMatch =>
      .error (.valueError ("Location \x27" ++ location ++ "\x27 could not be geocoded."))
  | .found lat lon => .ok (lat, lon)

/-- `RouteSerializer.validate_start_location`: geocodes the value and
raises `serializers.ValidationError` when the coordinates are outside the
USA box; exceptions from `geocode_location` propagate unchanged. -/
def validate_start_location (geo : String → GeoResult) (value : String) :
    Except FieldExc String :=
  match geocode_location geo value with
  | .error e => .error (.exc e)
  | .ok (lat, lon) =>
    if is_within_usa lat lon then .ok value
    else .error (.validationError
      ("Start location \x27" ++ value ++ "\x27 is not within the USA."))

/-- `RouteSerializer.validate_finish_location`: same as the start
validator with the finish wording. -/
def validate_finish_location (geo : String → GeoResult) (value : String) :
    Except FieldExc String :=
  match geocode_location geo value with
  | .error e => .error (.exc e)
  | .ok (lat, lon) =>
    if is_within_usa lat lon then .ok value
    else .error (.validationError
      ("Finish location \x27" ++ value ++ "\x27 is not within the USA."))

/-- Per-field validation errors collected by the framework, keyed by field
name (`None` = the field validated cleanly). -/
structure FieldErrors where
  start_location : Option String
  finish_location : Option String
deriving DecidableEq

/-- Django REST Framework `Serializer.to_internal_value` applied to the two
declared fields, in declaration order: each `validate_<field>` runs in a
`try` that catches only `ValidationError` (collected into the per-field
error dict); any other exception propagates immediately, aborting the
loop. -/
def to_internal_value (geo : String → GeoResult) (start finish : String) :
    Except Exc FieldErrors :=
  match validate_start_location geo start with
  | .error (.exc u) => .error u
  | .error (.validationError m1) =>
      match validate_finish_location geo finish with
      | .error (.exc u) => .error u
      | .error (.validationError m2) => .ok ⟨some m1, some m2⟩
      | .ok _ => .ok ⟨some m1, none⟩
  | .ok _ =>
      match validate_finish_location geo finish with
      | .error (.exc u) => .error u
      | .error (.validationError m2) => .ok ⟨none, some m2⟩
      | .ok _ => .ok ⟨none, none⟩

/-- `RouteSerializer.fetch_route_data`: geocodes both names, calls the
routing provider with the two coordinate pairs, raises `HTTPError` on a
provider error, and converts meters to miles dividing by `1609.34`. -/
def fetch_route_data (env : Env) (start_location end_location : String) :
    Except Exc (ℚ × String) := do
  let start_coords ← geocode_location env.geo start_location
  let end_coords ← geocode_location env.geo end_location
  match env.route start_coords end_coords with
  | .providerError m => .error (.httpError m)
  | .found meters geometry => .ok (meters / 1609.34, geometry)

/-- Boolean price comparison used to model
`order_by('price_per_gallon')`. -/
def priceLE (a b : FuelPrice) : Bool :=
  decide (a.price_per_gallon ≤ b.price_per_gallon)

/-- `FuelPrice.objects.order_by('price_per_gallon')`: the catalog in
ascending price order (stable sort, ties kept in table order, exactly the
behaviour of SQL `ORDER BY price_per_gallon`). -/
def order_by_price (catalog : List FuelPrice) : List FuelPrice :=
  catalog.mergeSort priceLE

/-- `RouteSerializer.find_optimal_fuel_stops`: orders the catalog by
price, fails with `ValueError` when the queryset is empty, computes
`stops_required = int(route_distance // VEHICLE_RANGE_MILES)`, and emits
one stop per range unit, each reusing `fuel_prices.first()` (the cheapest
record) and carrying `distance_from_start = current_distance + 500` with
`current_distance` advancing by 500 each iteration. -/
def find_optimal_fuel_stops (catalog : List FuelPrice) (route_distance : ℚ) :
    Except Exc (List FuelStop) :=
  let fuel_prices := order_by_price catalog
  if fuel_prices.isEmpty then
    .error (.valueError "No fuel prices available to calculate the total cost.")
  else
    match fuel_prices.head? with
    | none => .error (.valueError "No available fuel prices.")
    | some stop =>
        let stops_required := (Int.floor (route_distance / VEHICLE_RANGE_MILES)).toNat
        .ok ((List.range stops_required).map fun (i : ℕ) =>
          { city := stop.city
            state := stop.state
            price_per_gallon := stop.price_per_gallon
            distance_from_start := ((i : ℚ) + 1) * VEHICLE_RANGE_MILES })

/-- `FuelPrice.objects.aggregate(Avg('price_per_gallon'))`: `None` on an
empty table, otherwise the mean of all `price_per_gallon` values. -/
def average_price (catalog : List FuelPrice) : Option ℚ :=
  if catalog.isEmpty then none
  else some ((catalog.map FuelPrice.price_per_gallon).sum / (catalog.length : ℚ))

/-- `RouteSerializer.calculate_total_cost`:
`total_gallons = Decimal(route_distance) / Decimal(VEHICLE_MPG)`, then the
average price from the aggregate (raising `ValueError` when it is `None`),
then `total_cost = total_gallons * Decimal(average_fuel_price)`; `Decimal`
arithmetic is modelled exactly over `ℚ`. -/
def calculate_total_cost (catalog : List FuelPrice) (route_distance : ℚ) :
    Except Exc ℚ :=
  let total_gallons := route_distance / VEHICLE_MPG
  match average_price catalog with
  | none => .error (.valueError "No fuel prices available to calculate the total cost.")
  | some average_fuel_price => .ok (total_gallons * average_fuel_price)

/-- The dict returned by `RouteSerializer.create`: `route` geometry,
`fuel_stops`, `total_cost`. -/
structure PlanResult where
  route : String
  fuel_stops : List FuelStop
  total_cost : ℚ
deriving DecidableEq

/-- `RouteSerializer.create`: fetch the route, plan the stops, compute the
cost, assemble the result; the first exception aborts the rest. -/
def create (env : Env) (start finish : String) : Except Exc PlanResult := do
  let (route_distance, route_geometry) ← fetch_route_data env start finish
  let optimal_stops ← find_optimal_fuel_stops env.catalog route_distance
  let total_cost ← calculate_total_cost env.catalog route_distance
  return ⟨route_geometry, optimal_stops, total_cost⟩

/-- The HTTP responses `RouteView.post` can produce: 200 with the plan,
400 with the per-field validation error dict (from
`is_valid(raise_exception=True)`), 500 with a single `error` message for
`HTTPError`, 400 with a single `error` message for `ValueError`, or an
exception that escapes the view unhandled. -/
inductive Response where
  | success (r : PlanResult)
  | validationError400 (e : FieldErrors)
  | error500 (msg : String)
  | error400 (msg : String)
  | unhandledException (e : Exc)
deriving DecidableEq

/-- `RouteView.post`: run validation (`is_valid(raise_exception=True)` is
outside the `try`, so exceptions other than `ValidationError` escape the
view), then `create` inside a `try` mapping `HTTPError` to a 500 response
with `"Failed to fetch route data: " + str(e)` and `ValueError` to a 400
response with `str(e)`. -/
def post (env : Env) (start finish : String) : Response :=
  match to_internal_value env.geo start finish with
  | .error u => .unhandledException u
  | .ok fe =>
    if fe.start_location.isSome || fe.finish_location.isSome then
      .validationError400 fe
    else
      match create env start finish with
      | .error (.httpError m) => .error500 ("Failed to fetch route data: " ++ m)
      | .error (.valueError m) => .error400 m
      | .ok r => .success r

/-! Stateful rendering of the database accesses, for the frame property:
each queryset operation the code performs is a function of the current
table state that returns its answer together with the next table state. -/

/-- The read `FuelPrice.objects.order_by('price_per_gallon')` as a state
transformer: it returns the ordered rows and leaves the table unchanged
(it issues a `SELECT`, no write). -/
def qs_order_by_price (st : List FuelPrice) : List FuelPrice × List FuelPrice :=
  (order_by_price st, st)

/-- The read `FuelPrice.objects.aggregate(Avg('price_per_gallon'))` as a
state transformer: it returns the aggregate and leaves the table
unchanged. -/
def qs_aggregate_avg (st : List FuelPrice) : Option ℚ × List FuelPrice :=
  (average_price st, st)

/-- `find_optimal_fuel_stops` with the table state threaded through its
single database access. -/
def find_optimal_fuel_stopsSt (st : List FuelPrice) (route_distance : ℚ) :
    Except Exc (List FuelStop) × List FuelPrice :=
  match qs_order_by_price st with
  | (fuel_prices, st1) =>
    if fuel_prices.isEmpty then
      (.error (.valueError "No fuel prices available to calculate the total cost."), st1)
    else
      match fuel_prices.head? with
      | none => (.error (.valueError "No available fuel prices."), st1)
      | some stop =>
          let stops_required := (Int.floor (route_distance / VEHICLE_RANGE_MILES)).toNat
          (.ok ((List.range stops_required).map fun (i : ℕ) =>
            { city := stop.city
              state := stop.state
              price_per_gallon := stop.price_per_gallon
              distance_from_start := ((i : ℚ) + 1) * VEHICLE_RANGE_MILES }), st1)

/-- `calculate_total_cost` with the table state threaded through its
single database access. -/
def calculate_total_costSt (st : List FuelPrice) (route_distance : ℚ) :
    Except Exc ℚ × List FuelPrice :=
  match qs_aggregate_avg st with
  | (none, st1) =>
      (.error (.valueError "No fuel prices available to calculate the total cost."), st1)
  | (some average_fuel_price, st1) =>
      (.ok (route_distance / VEHICLE_MPG * average_fuel_price), st1)

/-- `RouteSerializer.create` with the table state threaded through every
database access, returning the outcome together with the final table
state; the network steps touch no database state. -/
def createSt (geo : String → GeoResult) (route : ℚ × ℚ → ℚ × ℚ → RouteResult)
    (st : List FuelPrice) (start finish : String) :
    Except Exc PlanResult × List FuelPrice :=
  match fetch_route_data ⟨geo, route, st⟩ start finish with
  | .error e => (.error e, st)
  | .ok (route_distance, route_geometry) =>
    match find_optimal_fuel_stopsSt st route_distance with
    | (.error e, st1) => (.error e, st1)
    | (.ok optimal_stops, st1) =>
      match calculate_total_costSt st1 route_distance with
      | (.error e, st2) => (.error e, st2)
      | (.ok total_cost, st2) => (.ok ⟨route_geometry, optimal_stops, total_cost⟩, st2)

/-! Helper lemmas about the ordered catalog. -/

/-- The price comparison is transitive. -/
lemma priceLE_trans : ∀ a b c : FuelPrice,
    priceLE a b = true → priceLE b c = true → priceLE a c = true := by
  intro a b c hab hbc
  simp only [priceLE, decide_eq_true_eq] at *
  exact le_trans hab hbc

/-- The price comparison is total. -/
lemma priceLE_total : ∀ a b : FuelPrice, (priceLE a b || priceLE b a) = true := by
  intro a b
  simp only [priceLE, Bool.or_eq_true, decide_eq_true_eq]
  exact le_total a.price_per_gallon b.price_per_gallon

/-- The head of the price-ordered catalog is a catalog record of minimal
price. -/
lemma head_order_by_price (catalog : List FuelPrice) (h : catalog ≠ []) :
    ∃ s, (order_by_price catalog).head? = some s ∧ s ∈ catalog ∧
      ∀ r ∈ catalog, s.price_per_gallon ≤ r.price_per_gallon := by
  have hperm := List.mergeSort_perm catalog priceLE
  have hne : order_by_price catalog ≠ [] := by
    intro h0
    apply h
    have hp : ([] : List FuelPrice).Perm catalog := by
      rw [← h0]; exact hperm
    exact hp.symm.eq_nil
  obtain ⟨s, t, heq⟩ := List.exists_cons_of_ne_nil hne
  refine ⟨s, by rw [heq]; rfl, ?_, ?_⟩
  · have hmem : s ∈ order_by_price catalog := by
      rw [heq]; exact List.mem_cons_self s t
    exact hperm.mem_iff.mp hmem
  · intro r hr
    have hr2 : r ∈ order_by_price catalog := hperm.mem_iff.mpr hr
    rw [heq] at hr2
    rcases List.mem_cons.mp hr2 with h1 | h2
    · rw [h1]
    · have hp : List.Pairwise (fun a b => priceLE a b = true) (order_by_price catalog) :=
        List.sorted_mergeSort priceLE_trans priceLE_total catalog
      rw [heq] at hp
      have := (List.pairwise_cons.mp hp).1 r h2
      simpa [priceLE] using this

/-- Closed form of `find_optimal_fuel_stops` on a non-empty catalog: the
result is `ok`, built from a cheapest catalog record. -/
lemma find_optimal_eq (catalog : List FuelPrice) (d : ℚ) (h : catalog ≠ []) :
    ∃ s, s ∈ catalog ∧ (∀ r ∈ catalog, s.price_per_gallon ≤ r.price_per_gallon) ∧
      find_optimal_fuel_stops catalog d =
        .ok ((List.range (Int.floor (d / VEHICLE_RANGE_MILES)).toNat).map fun (i : ℕ) =>
          { city := s.city
            state := s.state
            price_per_gallon := s.price_per_gallon
            distance_from_start := ((i : ℚ) + 1) * VEHICLE_RANGE_MILES }) := by
  obtain ⟨s, hhead, hmem, hmin⟩ := head_order_by_price catalog h
  have hne : (order_by_price catalog).isEmpty = false := by
    cases horder : order_by_price catalog with
    | nil => rw [horder] at hhead; simp at hhead
    | cons a t => simp [List.isEmpty]
  refine ⟨s, hmem, hmin, ?_⟩
  simp only [find_optimal_fuel_stops, hne, Bool.false_eq_true, if_false, hhead]

/-- Concrete two-record catalog used by the witnesses (the records of
end-to-end scenario D of the design: prices 3.00 and 2.50). -/
def catalogW : List FuelPrice :=
  [⟨"Las Vegas", "NV", 3⟩, ⟨"Phoenix", "AZ", 2.5⟩]

/-- C1: for every route distance `d ≥ 0` and non-empty catalog,
`find_optimal_fuel_stops` succeeds with exactly `⌊d / 500⌋` stops, the
`i`-th stop (0-based `i`) at `distance_from_start = (i + 1) * 500`, every
stop carrying the city, state and price of a cheapest catalog record (the
head of the catalog sorted by ascending price); a distance shorter than
500 gives `⌊d / 500⌋ = 0`, hence an empty list and no error. -/
theorem find_optimal_fuel_stops_count_and_price (catalog : List FuelPrice)
    (d : ℚ) (hcat : catalog ≠ []) (hd : 0 ≤ d) :
    ∃ s ∈ catalog, (∀ r ∈ catalog, s.price_per_gallon ≤ r.price_per_gallon) ∧
    ∃ stops, find_optimal_fuel_stops catalog d = .ok stops ∧
      (stops.length : ℤ) = Int.floor (d / 500) ∧
      ∀ i (h : i < stops.length),
        (stops.get ⟨i, h⟩).distance_from_start = ((i : ℚ) + 1) * 500 ∧
        (stops.get ⟨i, h⟩).city = s.city ∧
        (stops.get ⟨i, h⟩).state = s.state ∧
        (stops.get ⟨i, h⟩).price_per_gallon = s.price_per_gallon := by
  obtain ⟨s, hmem, hmin, heq⟩ := find_optimal_eq catalog d hcat
  refine ⟨s, hmem, hmin, _, heq, ?_, ?_⟩
  · simp only [List.length_map, List.length_range]
    rw [Int.toNat_of_nonneg]
    · norm_num [VEHICLE_RANGE_MILES]
    · rw [Int.floor_nonneg]
      exact div_nonneg hd (by norm_num [VEHICLE_RANGE_MILES])
  · intro i h
    simp [List.get_eq_getElem, List.getElem_map, List.getElem_range,
      VEHICLE_RANGE_MILES]

/-- Witness for C1 at the scenario-D catalog and distance 1200 (two range
units). -/
theorem find_optimal_fuel_stops_count_and_price_witness :
    (catalogW ≠ [] ∧ (0 : ℚ) ≤ 1200) ∧
    (∃ s ∈ catalogW, (∀ r ∈ catalogW, s.price_per_gallon ≤ r.price_per_gallon) ∧
    ∃ stops, find_optimal_fuel_stops catalogW 1200 = .ok stops ∧
      (stops.length : ℤ) = Int.floor ((1200 : ℚ) / 500) ∧
      ∀ i (h : i < stops.length),
        (stops.get ⟨i, h⟩).distance_from_start = ((i : ℚ) + 1) * 500 ∧
        (stops.get ⟨i, h⟩).city = s.city ∧
        (stops.get ⟨i, h⟩).state = s.state ∧
        (stops.get ⟨i, h⟩).price_per_gallon = s.price_per_gallon) :=
  ⟨⟨by simp [catalogW], by norm_num⟩,
    find_optimal_fuel_stops_count_and_price catalogW 1200
      (by simp [catalogW]) (by norm_num)⟩

/-- C2: for every route distance and non-empty catalog,
`calculate_total_cost` succeeds and returns exactly
`(d / 10) * mean(price_per_gallon)`; the `Decimal` fixed-point arithmetic
of the source is modelled as exact rational arithmetic, so the monetary
result carries no binary floating-point rounding drift. -/
theorem calculate_total_cost_exact (catalog : List FuelPrice) (d : ℚ)
    (hcat : catalog ≠ []) :
    calculate_total_cost catalog d =
      .ok ((d / 10) *
        ((catalog.map FuelPrice.price_per_gallon).sum / (catalog.length : ℚ))) := by
  have hne : catalog.isEmpty = false := by
    cases catalog with
    | nil => exact absurd rfl hcat
    | cons a t => rfl
  simp [calculate_total_cost, average_price, hne, VEHICLE_MPG]

/-- Witness for C2 at the scenario-D catalog and distance 1000: the cost
is `(1000 / 10) * ((3 + 2.5) / 2)`. -/
theorem calculate_total_cost_exact_witness :
    catalogW ≠ [] ∧
    calculate_total_cost catalogW 1000 =
      .ok ((1000 / 10) *
        ((catalogW.map FuelPrice.price_per_gallon).sum / (catalogW.length : ℚ))) :=
  ⟨by simp [catalogW], calculate_total_cost_exact catalogW 1000 (by simp [catalogW])⟩

/-- C3: on an empty catalog, and for every route distance (0 and distances
below one range unit included, where `stops_required = 0`), both
`find_optimal_fuel_stops` and `calculate_total_cost` fail with the
`ValueError` carrying the message
`No fuel prices available to calculate the total cost.`; neither returns a
zero or null result, and the emptiness check in the stop planner fires
even when no stop would have been computed. -/
theorem empty_catalog_both_fail (d : ℚ) :
    find_optimal_fuel_stops [] d =
        .error (.valueError "No fuel prices available to calculate the total cost.") ∧
      calculate_total_cost [] d =
        .error (.valueError "No fuel prices available to calculate the total cost.") := by
  constructor
  · simp [find_optimal_fuel_stops, order_by_price, List.mergeSort_nil]
  · rfl

/-- C8: on every non-empty catalog and route distance, the returned stop
list has `distance_from_start` advancing in steps of exactly 500, every
stop's `distance_from_start` bounded by the route distance, and all stops
carrying identical city, state and price. -/
theorem find_optimal_fuel_stops_invariants (catalog : List FuelPrice) (d : ℚ)
    (hcat : catalog ≠ []) :
    ∃ stops, find_optimal_fuel_stops catalog d = .ok stops ∧
      (∀ i (h : i + 1 < stops.length),
        (stops.get ⟨i + 1, h⟩).distance_from_start
          = (stops.get ⟨i, Nat.lt_of_succ_lt h⟩).distance_from_start + 500) ∧
      (∀ st ∈ stops, st.distance_from_start ≤ d) ∧
      (∀ st1 ∈ stops, ∀ st2 ∈ stops,
        st1.city = st2.city ∧ st1.state = st2.state ∧
          st1.price_per_gallon = st2.price_per_gallon) := by
  obtain ⟨s, hmem, hmin, heq⟩ := find_optimal_eq catalog d hcat
  refine ⟨_, heq, ?_, ?_, ?_⟩
  · intro i h
    simp only [List.get_eq_getElem, List.getElem_map, List.getElem_range,
      VEHICLE_RANGE_MILES]
    push_cast
    ring
  · intro st hst
    simp only [List.mem_map, List.mem_range] at hst
    obtain ⟨i, hi, rfl⟩ := hst
    simp only
    have h0 : 0 ≤ Int.floor (d / VEHICLE_RANGE_MILES) := by
      by_contra hneg
      push_neg at hneg
      rw [Int.toNat_of_nonpos (le_of_lt hneg)] at hi
      exact absurd hi (Nat.not_lt_zero i)
    have h2 : (((Int.floor (d / VEHICLE_RANGE_MILES)).toNat : ℤ)) =
        Int.floor (d / VEHICLE_RANGE_MILES) := Int.toNat_of_nonneg h0
    have h3 : (((Int.floor (d / VEHICLE_RANGE_MILES)).toNat : ℚ)) ≤
        d / VEHICLE_RANGE_MILES := by
      calc (((Int.floor (d / VEHICLE_RANGE_MILES)).toNat : ℚ))
          = ((Int.floor (d / VEHICLE_RANGE_MILES) : ℤ) : ℚ) := by exact_mod_cast h2
        _ ≤ d / VEHICLE_RANGE_MILES := Int.floor_le _
    have h4 : ((i : ℚ) + 1) ≤ (((Int.floor (d / VEHICLE_RANGE_MILES)).toNat : ℚ)) := by
      exact_mod_cast Nat.succ_le_of_lt hi
    have h5 : ((i : ℚ) + 1) * VEHICLE_RANGE_MILES ≤
        (d / VEHICLE_RANGE_MILES) * VEHICLE_RANGE_MILES :=
      mul_le_mul_of_nonneg_right (le_trans h4 h3)
        (by norm_num [VEHICLE_RANGE_MILES] : (0 : ℚ) ≤ VEHICLE_RANGE_MILES)
    rwa [div_mul_cancel₀ d (by norm_num [VEHICLE_RANGE_MILES] : VEHICLE_RANGE_MILES ≠ 0)] at h5
  · intro st1 h1 st2 h2
    simp only [List.mem_map, List.mem_range] at h1 h2
    obtain ⟨i, _, rfl⟩ := h1
    obtain ⟨j, _, rfl⟩ := h2
    exact ⟨rfl, rfl, rfl⟩

/-- Witness for C8 at the scenario-D catalog and distance 1234. -/
theorem find_optimal_fuel_stops_invariants_witness :
    catalogW ≠ [] ∧
    (∃ stops, find_optimal_fuel_stops catalogW 1234 = .ok stops ∧
      (∀ i (h : i + 1 < stops.length),
        (stops.get ⟨i + 1, h⟩).distance_from_start
          = (stops.get ⟨i, Nat.lt_of_succ_lt h⟩).distance_from_start + 500) ∧
      (∀ st ∈ stops, st.distance_from_start ≤ 1234) ∧
      (∀ st1 ∈ stops, ∀ st2 ∈ stops,
        st1.city = st2.city ∧ st1.state = st2.state ∧
          st1.price_per_gallon = st2.price_per_gallon)) :=
  ⟨by simp [catalogW], find_optimal_fuel_stops_invariants catalogW 1234 (by simp [catalogW])⟩

/-- C9: for a fixed non-empty catalog, the number of stops is monotone
non-decreasing in the route distance. -/
theorem find_optimal_fuel_stops_monotone (catalog : List FuelPrice)
    (d1 d2 : ℚ) (hcat : catalog ≠ []) (h : d1 ≤ d2) :
    ∃ s1 s2, find_optimal_fuel_stops catalog d1 = .ok s1 ∧
      find_optimal_fuel_stops catalog d2 = .ok s2 ∧ s1.length ≤ s2.length := by
  obtain ⟨a, -, -, heq1⟩ := find_optimal_eq catalog d1 hcat
  obtain ⟨b, -, -, heq2⟩ := find_optimal_eq catalog d2 hcat
  refine ⟨_, _, heq1, heq2, ?_⟩
  simp only [List.length_map, List.length_range]
  exact Int.toNat_le_toNat (Int.floor_le_floor
    (div_le_div_of_nonneg_right h
      (by norm_num [VEHICLE_RANGE_MILES] : (0 : ℚ) ≤ VEHICLE_RANGE_MILES)))

/-- Witness for C9 at the scenario-D catalog and distances 700 and 1600. -/
theorem find_optimal_fuel_stops_monotone_witness :
    (catalogW ≠ [] ∧ (700 : ℚ) ≤ 1600) ∧
    (∃ s1 s2, find_optimal_fuel_stops catalogW 700 = .ok s1 ∧
      find_optimal_fuel_stops catalogW 1600 = .ok s2 ∧ s1.length ≤ s2.length) :=
  ⟨⟨by simp [catalogW], by norm_num⟩,
    find_optimal_fuel_stops_monotone catalogW 700 1600 (by simp [catalogW]) (by norm_num)⟩

/-- C10: on every non-empty catalog, a zero-length route has total cost
exactly 0 and is not an error. -/
theorem calculate_total_cost_zero_distance (catalog : List FuelPrice)
    (hcat : catalog ≠ []) :
    calculate_total_cost catalog 0 = .ok 0 := by
  have hne : catalog.isEmpty = false := by
    cases catalog with
    | nil => exact absurd rfl hcat
    | cons a t => rfl
  simp [calculate_total_cost, average_price, hne, VEHICLE_MPG]

/-- Witness for C10 at the scenario-D catalog. -/
theorem calculate_total_cost_zero_distance_witness :
    catalogW ≠ [] ∧ calculate_total_cost catalogW 0 = .ok 0 :=
  ⟨by simp [catalogW], calculate_total_cost_zero_distance catalogW (by simp [catalogW])⟩

/-- Geocoding oracle for witnesses: every location resolves to London-like
coordinates, outside the USA box. -/
def geoOut : String → GeoResult := fun _ => .found 51.5 (-0.12)

/-- Geocoding oracle for the C4 counterexample: every lookup returns an
empty result list. -/
def geoCE : String → GeoResult := fun _ => .noMatch

/-- Geocoding oracle for witnesses: every location resolves to a point
inside the USA box. -/
def geoIn : String → GeoResult := fun _ => .found 40 (-100)

/-- C5: whenever a location geocodes to coordinates outside the bounding
box, the field validator fails with the `ValidationError` naming the field
and carrying the original location name in its message; whenever it
geocodes inside the box, the validator returns the value unchanged. -/
theorem validate_location_bounds (geo : String → GeoResult) (value : String)
    (lat lon : ℚ) (h : geo value = .found lat lon) :
    (is_within_usa lat lon = false →
      validate_start_location geo value = .error (.validationError
        ("Start location \x27" ++ value ++ "\x27 is not within the USA.")) ∧
      validate_finish_location geo value = .error (.validationError
        ("Finish location \x27" ++ value ++ "\x27 is not within the USA."))) ∧
    (is_within_usa lat lon = true →
      validate_start_location geo value = .ok value ∧
      validate_finish_location geo value = .ok value) := by
  constructor <;> intro hb <;> constructor <;>
    simp [validate_start_location, validate_finish_location, geocode_location, h, hb]

/-- Witness for C5: the end-to-end scenario-A location resolves outside
the box and both validators produce the expected messages. -/
theorem validate_location_bounds_witness :
    validate_start_location geoOut "London, UK" = .error (.validationError
      ("Start location \x27" ++ "London, UK" ++ "\x27 is not within the USA.")) ∧
    validate_finish_location geoOut "London, UK" = .error (.validationError
      ("Finish location \x27" ++ "London, UK" ++ "\x27 is not within the USA.")) :=
  (validate_location_bounds geoOut "London, UK" 51.5 (-0.12) rfl).1
    (by norm_num [is_within_usa])

/-- C4 counterexample: with a geocoder that finds no match, a
`GeocodeFailure` raised while validating the start field is not collected
into the per-field error response — validation aborts at once with the
propagating `ValueError`, and the finish field is never validated, so no
response carrying per-field errors is produced. -/
theorem geocode_failure_not_collected :
    to_internal_value geoCE "Springfield" "Shelbyville" =
      .error (.valueError
        ("Location \x27" ++ "Springfield" ++ "\x27 could not be geocoded.")) := rfl

/-- C4 amended: `OutOfBoundsLocation` validation failures (the
`ValidationError`s raised by the field validators) are collected per
offending field and returned together — both fields' failures appear in
one response when both locations are out of bounds — while a
`GeocodeFailure` raised during validation is not collected: it aborts
validation immediately and propagates as an unhandled exception. -/
theorem out_of_bounds_errors_collected_per_field :
    (∀ (geo : String → GeoResult) (s f : String) (lat1 lon1 lat2 lon2 : ℚ),
      geo s = .found lat1 lon1 → geo f = .found lat2 lon2 →
      is_within_usa lat1 lon1 = false → is_within_usa lat2 lon2 = false →
      to_internal_value geo s f = .ok
        ⟨some ("Start location \x27" ++ s ++ "\x27 is not within the USA."),
         some ("Finish location \x27" ++ f ++ "\x27 is not within the USA.")⟩) ∧
    (∀ (geo : String → GeoResult) (s f : String),
      geo s = .noMatch →
      to_internal_value geo s f = .error (.valueError
        ("Location \x27" ++ s ++ "\x27 could not be geocoded."))) := by
  constructor
  · intro geo s f lat1 lon1 lat2 lon2 hs hf h1 h2
    simp [to_internal_value, validate_start_location, validate_finish_location,
      geocode_location, hs, hf, h1, h2]
  · intro geo s f hs
    simp [to_internal_value, validate_start_location, geocode_location, hs]

/-- Witness for C4 amended: two out-of-bounds locations produce one
response carrying both field errors. -/
theorem out_of_bounds_errors_collected_per_field_witness :
    to_internal_value geoOut "London, UK" "Paris, France" = .ok
      ⟨some ("Start location \x27" ++ "London, UK" ++ "\x27 is not within the USA."),
       some ("Finish location \x27" ++ "Paris, France" ++ "\x27 is not within the USA.")⟩ :=
  out_of_bounds_errors_collected_per_field.1 geoOut "London, UK" "Paris, France"
    51.5 (-0.12) 51.5 (-0.12) rfl rfl
    (by norm_num [is_within_usa]) (by norm_num [is_within_usa])

/-- C6: once validation has passed, a downstream `HTTPError` from `create`
yields the single top-level 500 response
`Failed to fetch route data: <msg>`, and a downstream `ValueError` yields
the single top-level 400 response carrying the exception message; in both
cases the response carries no partial plan. -/
theorem post_downstream_error_mapping (env : Env) (start finish m : String)
    (hval : to_internal_value env.geo start finish = .ok ⟨none, none⟩) :
    (create env start finish = .error (.httpError m) →
      post env start finish = .error500 ("Failed to fetch route data: " ++ m)) ∧
    (create env start finish = .error (.valueError m) →
      post env start finish = .error400 m) := by
  constructor <;> intro hc <;> simp [post, hval, hc]

/-- Environment for the C6 witness: geocoding succeeds inside the box, the
routing provider fails with an HTTP error. -/
def envW : Env := ⟨geoIn, fun _ _ => .providerError "boom", []⟩

/-- Environment for the C6 witness: geocoding and routing succeed, the
fuel-price table is empty. -/
def envW2 : Env := ⟨geoIn, fun _ _ => .found 160934 "geom", []⟩

/-- Witness for C6: the routing-provider failure maps to the 500 response
and the empty-catalog failure maps to the 400 response. -/
theorem post_downstream_error_mapping_witness :
    post envW "a" "b" = .error500 ("Failed to fetch route data: " ++ "boom") ∧
    post envW2 "a" "b" =
      .error400 "No fuel prices available to calculate the total cost." :=
  ⟨(post_downstream_error_mapping envW "a" "b" "boom"
      (by norm_num [to_internal_value, validate_start_location,
        validate_finish_location, geocode_location, geoIn, envW, is_within_usa])).1
      rfl,
   (post_downstream_error_mapping envW2 "a" "b"
      "No fuel prices available to calculate the total cost."
      (by norm_num [to_internal_value, validate_start_location,
        validate_finish_location, geocode_location, geoIn, envW2, is_within_usa])).2
      (by simp [create, fetch_route_data, geocode_location, geoIn, envW2,
        find_optimal_fuel_stops, order_by_price, List.mergeSort_nil,
        bind, Except.bind])⟩

/-- The stateful stop planner returns exactly the pure stop planner's
answer and leaves the table state unchanged. -/
lemma find_optimal_fuel_stopsSt_eq (st : List FuelPrice) (d : ℚ) :
    find_optimal_fuel_stopsSt st d = (find_optimal_fuel_stops st d, st) := by
  simp only [find_optimal_fuel_stopsSt, find_optimal_fuel_stops, qs_order_by_price]
  split
  · rfl
  · split <;> rfl

/-- The stateful cost estimator returns exactly the pure cost estimator's
answer and leaves the table state unchanged. -/
lemma calculate_total_costSt_eq (st : List FuelPrice) (d : ℚ) :
    calculate_total_costSt st d = (calculate_total_cost st d, st) := by
  simp only [calculate_total_costSt, calculate_total_cost, qs_aggregate_avg]
  cases havg : average_price st <;> simp [havg]

/-- C7: a planning request mutates no stored state — with every database
access threaded through the table state, `create` leaves the fuel-price
table exactly as it found it, whether it succeeds or fails at any step,
and computes the same outcome as the pure rendering. -/
theorem create_preserves_catalog (geo : String → GeoResult)
    (route : ℚ × ℚ → ℚ × ℚ → RouteResult) (st : List FuelPrice)
    (start finish : String) :
    (createSt geo route st start finish).2 = st ∧
    (createSt geo route st start finish).1 = create ⟨geo, route, st⟩ start finish := by
  have h1 : ∀ d, find_optimal_fuel_stopsSt st d = (find_optimal_fuel_stops st d, st) :=
    fun d => find_optimal_fuel_stopsSt_eq st d
  have h2 : ∀ d, calculate_total_costSt st d = (calculate_total_cost st d, st) :=
    fun d => calculate_total_costSt_eq st d
  cases hf : fetch_route_data ⟨geo, route, st⟩ start finish with
  | error e => constructor <;> simp [createSt, create, hf, bind, Except.bind, pure, Except.pure]
  | ok p =>
    obtain ⟨d, g⟩ := p
    cases hfind : find_optimal_fuel_stops st d with
    | error e =>
        constructor <;>
          simp [createSt, create, hf, h1, hfind, bind, Except.bind, pure, Except.pure]
    | ok stops =>
      cases hcost : calculate_total_cost st d with
      | error e =>
          constructor <;>
            simp [createSt, create, hf, h1, h2, hfind, hcost, bind, Except.bind, pure, Except.pure]
      | ok cost =>
          constructor <;>
            simp [createSt, create, hf, h1, h2, hfind, hcost, bind, Except.bind, pure, Except.pure]

end OptimoRoute
